import Mathlib

/-!
Verification development for a minimal web-service scaffold: settings
loading, structured logging with request-id correlation, request-logging
middleware, exception-to-HTTP-status mapping, and health endpoints.

Each Python function relevant to the verified properties is shallowly
embedded as an executable Lean definition, translated directly from the
source files under `app/core/` (`config.py`, `logging.py`, `middleware.py`,
`exceptions.py`, `health.py`).
-/

/-! ## Python string primitives

Executable embeddings of the Python string operations the settings loader
uses: `str.split(",")` and `str.strip()`. -/

/-- The whitespace characters removed by Python `str.strip()` (modelled
over the ASCII whitespace characters: space, tab, newline, carriage
return, vertical tab, form feed). -/
def isPySpace (c : Char) : Bool :=
  c = ' ' || c = '\t' || c = '\n' || c = '\r' || c = '\x0b' || c = '\x0c'

/-- Python `str.strip()`: remove leading and trailing whitespace. -/
def pyStrip (s : String) : String :=
  String.mk (((s.data.dropWhile isPySpace).reverse.dropWhile isPySpace).reverse)

/-- Helper for `pySplitComma`: split a character list at every `','`.
The result is always non-empty; Python `"".split(",")` is `[""]`. -/
def splitCommaChars : List Char → List (List Char)
  | [] => [[]]
  | c :: rest =>
    match splitCommaChars rest with
    | [] => [[]]
    | seg :: segs =>
        if c = ',' then [] :: seg :: segs else (c :: seg) :: segs

/-- Python `s.split(",")`. -/
def pySplitComma (s : String) : List String :=
  (splitCommaChars s.data).map String.mk

/-! ## Settings loader (`app/core/config.py`) -/

/-- The raw value handed to the `allowed_origins` field validator:
Python `str | list[str] | None`. -/
inductive OriginsInput where
  | none : OriginsInput
  | str (s : String) : OriginsInput
  | list (l : List String) : OriginsInput
deriving DecidableEq, Repr

/-- The fixed default pair of local-development origins returned by
`parse_allowed_origins` for an absent or empty input. -/
def defaultOrigins : List String :=
  ["http://localhost:3000", "http://localhost:8123"]

/-- Embedding of `Settings.parse_allowed_origins` (config.py:34-50):
`if v is None or (isinstance(v, list) and len(v) == 0): return defaults`;
`if isinstance(v, str): return [origin.strip() for origin in v.split(",") if origin.strip()]`;
`return v`.  The truthiness test `if origin.strip()` keeps exactly the
segments whose strip is non-empty; the kept element is the stripped
segment. -/
def parse_allowed_origins : OriginsInput → List String
  | OriginsInput.none => defaultOrigins
  | OriginsInput.list [] => defaultOrigins
  | OriginsInput.str s =>
      ((pySplitComma s).map pyStrip).filter (fun o => o ≠ "")
  | OriginsInput.list l => l

/-! ## Theorems for the origins parser (C2, C6) -/

/-- C6: the origins parser is total on `None | str | list` and satisfies:
absent input or the empty list yields exactly the two documented default
origins; a non-empty list passes through unchanged; for a string input
every returned element is non-empty and is the whitespace-strip of one of
the comma-separated segments, the output preserves the original segment
order (it is a sublist of the stripped segment list), and no segment with
a non-empty strip is dropped. -/
theorem parse_allowed_origins_spec :
    parse_allowed_origins OriginsInput.none = defaultOrigins ∧
    parse_allowed_origins (OriginsInput.list []) = defaultOrigins ∧
    (∀ l : List String, l ≠ [] →
      parse_allowed_origins (OriginsInput.list l) = l) ∧
    (∀ s : String,
      (∀ x ∈ parse_allowed_origins (OriginsInput.str s),
        x ≠ "" ∧ ∃ seg ∈ pySplitComma s, x = pyStrip seg) ∧
      List.Sublist (parse_allowed_origins (OriginsInput.str s))
        ((pySplitComma s).map pyStrip) ∧
      (∀ seg ∈ pySplitComma s, pyStrip seg ≠ "" →
        pyStrip seg ∈ parse_allowed_origins (OriginsInput.str s))) := by
  refine ⟨rfl, rfl, ?_, ?_⟩
  · intro l hl
    cases l with
    | nil => exact absurd rfl hl
    | cons a t => rfl
  · intro s
    refine ⟨?_, ?_, ?_⟩
    · intro x hx
      simp only [parse_allowed_origins, List.mem_filter, List.mem_map] at hx
      obtain ⟨⟨seg, hseg, hx1⟩, hx2⟩ := hx
      refine ⟨by simpa using hx2, seg, hseg, hx1.symm⟩
    · exact List.filter_sublist _
    · intro seg hseg hne
      simp only [parse_allowed_origins, List.mem_filter, List.mem_map]
      exact ⟨⟨seg, hseg, rfl⟩, by simpa using hne⟩

/-- Witness for C6 at concrete inputs: a non-empty list passes through, and
in the string " b , ,c" the stripped segment "b" is kept. -/
theorem parse_allowed_origins_spec_witness :
    parse_allowed_origins (OriginsInput.list ["http://a"]) = ["http://a"] ∧
    "b" ∈ parse_allowed_origins (OriginsInput.str " b , ,c") := by
  have h := parse_allowed_origins_spec
  refine ⟨h.2.2.1 ["http://a"] (by decide), ?_⟩
  have hb := (h.2.2.2 " b , ,c").2.2 " b " (by decide) (by decide)
  simpa using hb

/-- C2 counterexample: the claim says the parsed `allowed_origins` is never
empty, but for the raw string input `""` the parser takes the string branch
(the absent/empty check only catches `None` and the empty list), every
segment strips to empty, and the result is the empty list. -/
theorem parse_allowed_origins_empty_string :
    parse_allowed_origins (OriginsInput.str "") = [] := by decide

/-- C2 (amended): the parsed collection is non-empty whenever the input is
absent, an empty list, a non-empty list, or a string at least one of whose
comma-separated segments has a non-empty strip; in the absent and
empty-list cases the fixed default pair is substituted.  (Strings all of
whose segments strip to empty, such as `""` or `" , "`, yield an empty
result.) -/
theorem parse_allowed_origins_nonempty
    (v : OriginsInput)
    (hstr : ∀ s, v = OriginsInput.str s →
      ∃ seg ∈ pySplitComma s, pyStrip seg ≠ "") :
    parse_allowed_origins v ≠ [] ∧
    ((v = OriginsInput.none ∨ v = OriginsInput.list []) →
      parse_allowed_origins v = defaultOrigins) := by
  constructor
  · cases v with
    | none => decide
    | str s =>
        obtain ⟨seg, hseg, hne⟩ := hstr s rfl
        have hmem : pyStrip seg ∈ parse_allowed_origins (OriginsInput.str s) :=
          (parse_allowed_origins_spec.2.2.2 s).2.2 seg hseg hne
        exact List.ne_nil_of_mem hmem
    | list l =>
        cases l with
        | nil => decide
        | cons a t => simp [parse_allowed_origins]
  · rintro (rfl | rfl) <;> rfl

/-- Witness for the amended C2 at a concrete input. -/
theorem parse_allowed_origins_nonempty_witness :
    parse_allowed_origins (OriginsInput.str "http://x, ") ≠ [] :=
  (parse_allowed_origins_nonempty (OriginsInput.str "http://x, ")
    (by intro s hs; cases hs; exact ⟨"http://x", by decide, by decide⟩)).1

/-! ## Python values and dict operations

Log events and JSON bodies are dictionaries from string keys to values.
Python dicts preserve insertion order and overwrite in place. -/

/-- A Python value as it appears in log-event fields and JSON bodies. -/
inductive PyValue where
  | str (s : String)
  | num (q : ℚ)
  | bool (b : Bool)
  | none
deriving DecidableEq, Repr

/-- Python dict assignment `d[k] = v` on an insertion-ordered
association list: overwrite in place if the key exists, else append. -/
def dictSet {α : Type} (d : List (String × α)) (k : String) (v : α) :
    List (String × α) :=
  if d.any (fun p => p.1 = k) then
    d.map (fun p => if p.1 = k then (k, v) else p)
  else d ++ [(k, v)]

/-- Python dict lookup `d.get(k)`. -/
def dictGet {α : Type} (d : List (String × α)) (k : String) : Option α :=
  (d.find? (fun p => p.1 = k)).map (fun p => p.2)

/-! ## Request-id context (`app/core/logging.py`)

`request_id_var` is a `contextvars.ContextVar[str | None]` with default
`None`.  Python's contextvars give every concurrently running logical
task its own context: `ContextVar.set` writes only the current task's
context and is invisible to every other task.  We embed this as a store
mapping each task id to that task's current value. -/

/-- Identifier of a concurrent logical task (asyncio task). -/
abbrev TaskId := Nat

/-- The per-task state of `request_id_var`: each task's current value
(`Option.none` models both the unset default and an explicit `None`). -/
abbrev ReqCtx := TaskId → Option String

/-- Embedding of `set_request_id` (logging.py:47-53) executed by task `t`:
`request_id_var.set(request_id)` updates only task `t`'s context.  The
parameter is `Option String` because the middleware passes the possibly
absent header value. -/
def set_request_id (t : TaskId) (request_id : Option String) (c : ReqCtx) :
    ReqCtx :=
  fun u => if u = t then request_id else c u

/-- Embedding of `get_request_id` (logging.py:56-62) executed by task `t`:
`request_id_var.get()` reads task `t`'s context. -/
def get_request_id (t : TaskId) (c : ReqCtx) : Option String := c t

/-- An interleaved schedule of `set_request_id` calls by concurrent tasks,
each event being (task, id) with a string id, applied in order. -/
def runSets : List (TaskId × String) → ReqCtx → ReqCtx
  | [], c => c
  | e :: rest, c => runSets rest (set_request_id e.1 (some e.2) c)

/-- The id most recently set by task `t` itself in a schedule, if any
(the schedule is applied left to right, so later events win). -/
def lastIdOf (t : TaskId) : List (TaskId × String) → Option String
  | [] => Option.none
  | e :: rest =>
    match lastIdOf t rest with
    | some v => some v
    | Option.none => if e.1 = t then some e.2 else Option.none

/-! ## Log-record processor `add_request_id` (logging.py:64-80) -/

/-- Embedding of the structlog processor `add_request_id`
(logging.py:64-80): `request_id = get_request_id()`;
`if request_id is not None: event_dict["request_id"] = request_id`;
`return event_dict`.  The `requestId` parameter is the value
`get_request_id()` returns in the current context. -/
def add_request_id (requestId : Option String)
    (event_dict : List (String × PyValue)) : List (String × PyValue) :=
  match requestId with
  | some rid => dictSet event_dict "request_id" (PyValue.str rid)
  | Option.none => event_dict

/-! ## Log-level resolution in `setup_logging` (logging.py:83-90)

`numeric_level = getattr(logging, log_level.upper(), logging.INFO)` followed
by `root_logger.setLevel(numeric_level)`.  `getattr` can reach exactly the
ALL-CAPS attributes of CPython's `logging` module: the eight level names
bound to ints, and `BASIC_FORMAT`, bound to a format string.  `setLevel`
accepts an int directly; for a string it requires a registered level name
(`logging._checkLevel`) and raises `ValueError` otherwise. -/

/-- A value of a `logging`-module attribute as classified by
`_checkLevel`: an int level, a string, or a value of any other type
(identified by the attribute's name). -/
inductive PyLevelAttr where
  | level (n : Nat)
  | str (s : String)
  | other (d : String)
deriving DecidableEq, Repr

/-- The attributes of CPython's `logging` module whose names contain no
lowercase letters — exactly those reachable by
`getattr(logging, log_level.upper(), ...)`: the level names
CRITICAL/FATAL 50, ERROR 40, WARNING/WARN 30, INFO 20, DEBUG 10,
NOTSET 0, the string `BASIC_FORMAT`, and the dict `_STYLES`. -/
def loggingModuleAllCapsAttr : String → Option PyLevelAttr
  | "CRITICAL" => some (PyLevelAttr.level 50)
  | "FATAL" => some (PyLevelAttr.level 50)
  | "ERROR" => some (PyLevelAttr.level 40)
  | "WARNING" => some (PyLevelAttr.level 30)
  | "WARN" => some (PyLevelAttr.level 30)
  | "INFO" => some (PyLevelAttr.level 20)
  | "DEBUG" => some (PyLevelAttr.level 10)
  | "NOTSET" => some (PyLevelAttr.level 0)
  | "BASIC_FORMAT" => some (PyLevelAttr.str "%(levelname)s:%(name)s:%(message)s")
  | "_STYLES" => some (PyLevelAttr.other "_STYLES")
  | _ => Option.none

/-- Python `str.upper()` (ASCII case mapping). -/
def pyUpper (s : String) : String := String.mk (s.data.map Char.toUpper)

/-- `getattr(logging, name, logging.INFO)`: the attribute if present,
else the default `logging.INFO = 20`. -/
def getattrLoggingDefault (name : String) : PyLevelAttr :=
  (loggingModuleAllCapsAttr name).getD (PyLevelAttr.level 20)

/-- `logging._nameToLevel`: the registered level names `setLevel`
accepts as strings. -/
def nameToLevel : String → Option Nat
  | "CRITICAL" => some 50
  | "FATAL" => some 50
  | "ERROR" => some 40
  | "WARN" => some 30
  | "WARNING" => some 30
  | "INFO" => some 20
  | "DEBUG" => some 10
  | "NOTSET" => some 0
  | _ => Option.none

/-- `Logger.setLevel` via `logging._checkLevel`: an int passes through;
a string must be a registered level name, otherwise `ValueError`; any
value of another type raises `TypeError`. -/
def checkLevel : PyLevelAttr → Except String Nat
  | PyLevelAttr.level n => Except.ok n
  | PyLevelAttr.str s =>
      match nameToLevel s with
      | some n => Except.ok n
      | Option.none => Except.error ("ValueError: Unknown level: " ++ s)
  | PyLevelAttr.other d =>
      Except.error ("TypeError: Level not an integer or a valid string: " ++ d)

/-- The numeric root-logger threshold `setup_logging(log_level)`
establishes (logging.py:83-90 together with the `setLevel` call on the
root logger), or the error `setLevel` raises. -/
def setup_logging_numeric_level (log_level : String) : Except String Nat :=
  checkLevel (getattrLoggingDefault (pyUpper log_level))

/-! ## Theorems for the logging module (C5, C9, C10) -/

/-- C5 evaluation at the failing input: with the request-context value set
to the empty string (as the repository's own test
`test_add_request_id_processor_without_id` does via
`request_id_var.set("")`), the processor nevertheless adds the
`request_id` field — the code only checks `is not None` — although the
claim (and that test) say the field is absent for an empty-string
context. -/
theorem add_request_id_empty_string_adds_field :
    add_request_id (some "") [("event", PyValue.str "test.event")] =
      [("event", PyValue.str "test.event"), ("request_id", PyValue.str "")] ∧
    dictGet (add_request_id (some "")
      [("event", PyValue.str "test.event")]) "request_id" =
      some (PyValue.str "") := by
  constructor <;> decide

/-- C9: the request-id storage is scoped per concurrent logical task.
First, a `set_request_id` performed by one task is invisible to every
other task.  Second, under any interleaved schedule of `set_request_id`
calls by arbitrary tasks, the value a task observes is exactly the last
id that task itself set (or its prior value if it set none) — concurrent
requests can never observe each other's correlation id. -/
theorem request_id_task_isolation :
    (∀ t u : TaskId, ∀ v : Option String, ∀ c : ReqCtx, t ≠ u →
      get_request_id u (set_request_id t v c) = get_request_id u c) ∧
    (∀ evs : List (TaskId × String), ∀ t : TaskId, ∀ c : ReqCtx,
      get_request_id t (runSets evs c) =
        ((lastIdOf t evs).map (fun v => some v)).getD (get_request_id t c)) := by
  constructor
  · intro t u v c h
    simp only [get_request_id, set_request_id]
    rw [if_neg (fun he : u = t => h he.symm)]
  · intro evs
    induction evs with
    | nil => intro t c; simp [runSets, lastIdOf]
    | cons e rest ih =>
        intro t c
        simp only [runSets]
        rw [ih]
        cases hw : lastIdOf t rest with
        | some w => simp [lastIdOf, hw]
        | none =>
            by_cases h : e.1 = t
            · subst h
              simp [lastIdOf, hw, get_request_id, set_request_id]
            · simp only [lastIdOf, hw, h, if_false, get_request_id,
                set_request_id]
              rw [if_neg (fun he : t = e.1 => h he.symm)]

/-- Witness for C9 at a concrete schedule: task 0 sets `id-0`, task 1 sets
`id-1`, then task 0 overwrites with `id-0b`; task 1 still observes `id-1`
and task 0 observes `id-0b`. -/
theorem request_id_task_isolation_witness :
    get_request_id 1 (set_request_id 0 (some "a") (fun _ => Option.none)) =
      Option.none ∧
    get_request_id 1
      (runSets [(0, "id-0"), (1, "id-1"), (0, "id-0b")] (fun _ => Option.none)) =
      some "id-1" ∧
    get_request_id 0
      (runSets [(0, "id-0"), (1, "id-1"), (0, "id-0b")] (fun _ => Option.none)) =
      some "id-0b" := by
  have h := request_id_task_isolation
  refine ⟨h.1 0 1 (some "a") (fun _ => Option.none) (by decide), ?_, ?_⟩
  · rw [h.2 [(0, "id-0"), (1, "id-1"), (0, "id-0b")] 1 (fun _ => Option.none)]
    decide
  · rw [h.2 [(0, "id-0"), (1, "id-1"), (0, "id-0b")] 0 (fun _ => Option.none)]
    decide

/-- C10 counterexample: the string `"basic_format"` upper-cases to
`BASIC_FORMAT`, which is not a logging level name, yet `setup_logging`
does not silently fall back to INFO: `getattr` finds the module attribute
`logging.BASIC_FORMAT` (a format string), and `setLevel` then raises
`ValueError` instead of configuring INFO (20). -/
theorem setup_logging_basic_format_raises :
    nameToLevel (pyUpper "basic_format") = Option.none ∧
    setup_logging_numeric_level "basic_format" =
      Except.error
        "ValueError: Unknown level: %(levelname)s:%(name)s:%(message)s" ∧
    setup_logging_numeric_level "basic_format" ≠ Except.ok 20 := by
  refine ⟨by decide, rfl, ?_⟩
  intro h
  rw [show setup_logging_numeric_level "basic_format" =
    Except.error
      "ValueError: Unknown level: %(levelname)s:%(name)s:%(message)s"
    from rfl] at h
  exact Except.noConfusion h

/-- C10 (amended): level-name matching in `setup_logging` is
case-insensitive — the configured threshold depends only on the
upper-cased input, and each standard level name in any case yields its
numeric level; any string whose upper-casing is not an attribute of the
`logging` module silently configures INFO (20); but the non-level
attributes reachable through upper-casing make `setLevel` raise instead:
`BASIC_FORMAT` (a format string) raises `ValueError` and `_STYLES` (a
dict) raises `TypeError`. -/
theorem setup_logging_level_spec
    (s₁ s₂ : String) (hcase : pyUpper s₁ = pyUpper s₂)
    (s : String) (hmiss : loggingModuleAllCapsAttr (pyUpper s) = Option.none) :
    setup_logging_numeric_level s₁ = setup_logging_numeric_level s₂ ∧
    setup_logging_numeric_level s = Except.ok 20 ∧
    setup_logging_numeric_level "debug" = Except.ok 10 ∧
    setup_logging_numeric_level "Info" = Except.ok 20 ∧
    setup_logging_numeric_level "warning" = Except.ok 30 ∧
    setup_logging_numeric_level "error" = Except.ok 40 ∧
    setup_logging_numeric_level "critical" = Except.ok 50 ∧
    setup_logging_numeric_level "warn" = Except.ok 30 ∧
    setup_logging_numeric_level "fatal" = Except.ok 50 ∧
    setup_logging_numeric_level "notset" = Except.ok 0 ∧
    setup_logging_numeric_level "basic_format" =
      Except.error
        "ValueError: Unknown level: %(levelname)s:%(name)s:%(message)s" ∧
    setup_logging_numeric_level "_styles" =
      Except.error
        "TypeError: Level not an integer or a valid string: _STYLES" := by
  refine ⟨?_, ?_, rfl, rfl, rfl, rfl, rfl, rfl, rfl, rfl, rfl, rfl⟩
  · unfold setup_logging_numeric_level
    rw [hcase]
  · unfold setup_logging_numeric_level getattrLoggingDefault
    rw [hmiss]
    rfl

/-- Witness for the amended C10: `"DeBuG"` and `"debug"` configure the
same level, and `"verbose"` (no such logging attribute) silently yields
INFO. -/
theorem setup_logging_level_spec_witness :
    pyUpper "DeBuG" = pyUpper "debug" ∧
    loggingModuleAllCapsAttr (pyUpper "verbose") = Option.none ∧
    (setup_logging_numeric_level "DeBuG" =
        setup_logging_numeric_level "debug" ∧
      setup_logging_numeric_level "verbose" = Except.ok 20) := by
  refine ⟨by decide, by decide, ?_⟩
  have h := setup_logging_level_spec "DeBuG" "debug" (by decide)
    "verbose" (by decide)
  exact ⟨h.1, h.2.1⟩

/-! ## Request-logging middleware (`app/core/middleware.py`)

`RequestLoggingMiddleware.dispatch` reads the `X-Request-ID` header,
stores it (possibly `None`) in the request context, logs
`request.started`, delegates to `call_next`, and on success logs
`request.completed` and assigns `get_request_id()` as the
`X-Request-ID` response header; on an exception it logs `request.failed`
and re-raises. -/

/-- The parts of the incoming starlette request the middleware reads.
`xRequestId` is `request.headers.get("X-Request-ID")` and `client_host`
is `request.client.host if request.client else None`. -/
structure Request where
  method : String
  path : String
  client_host : Option String
  xRequestId : Option String
deriving DecidableEq, Repr

/-- The response produced by `call_next`: status code and mutable
headers. -/
structure Response where
  status_code : Nat
  headers : List (String × String)
deriving DecidableEq, Repr

/-- One structured log record as emitted by the middleware or the
exception handler: severity, event name, keyword fields, and whether
`exc_info=True` was passed. -/
structure LogEvent where
  level : String
  event : String
  fields : List (String × PyValue)
  excInfo : Bool := false
deriving DecidableEq, Repr

/-- starlette `MutableHeaders.__setitem__` (`response.headers[k] = v`):
the value must be a `str` — starlette immediately calls
`value.encode("latin-1")`, so assigning `None` raises
`AttributeError`. -/
def setResponseHeader (r : Response) (k : String) :
    Option String → Except String Response
  | some v => Except.ok { r with headers := dictSet r.headers k v }
  | Option.none =>
      Except.error "AttributeError: NoneType object has no attribute encode"

/-- What `dispatch` does for the caller: return a response, or let an
exception propagate. -/
inductive DispatchOutcome where
  | response (r : Response)
  | raised (err : String)
deriving DecidableEq, Repr

/-- The observable result of one `dispatch` call: the log records it
emitted, in order, and its outcome. -/
structure DispatchResult where
  logs : List LogEvent
  outcome : DispatchOutcome
deriving DecidableEq, Repr

/-- Round-half-to-even on rationals: the tie-breaking rule of Python's
built-in `round` (ties go to the integer with even last digit). -/
def roundHalfEven (q : ℚ) : ℤ :=
  if q - ⌊q⌋ < 1/2 then ⌊q⌋
  else if 1/2 < q - ⌊q⌋ then ⌊q⌋ + 1
  else if ⌊q⌋ % 2 = 0 then ⌊q⌋ else ⌊q⌋ + 1

/-- Python `round(x, 3)`: round to 3 decimal places, half to even
(modelled over exact rationals; the binary floating-point representation
error of the operands is abstracted). -/
def round3 (q : ℚ) : ℚ := (roundHalfEven (q * 1000) : ℚ) / 1000

/-- The `request.started` record (middleware.py:33-38). -/
def startedEvent (req : Request) : LogEvent :=
  { level := "info", event := "request.started",
    fields := [("method", PyValue.str req.method),
               ("path", PyValue.str req.path),
               ("client_host",
                 match req.client_host with
                 | some h => PyValue.str h
                 | Option.none => PyValue.none)] }

/-- The `request.completed` record (middleware.py:44-50); `duration` is
the already-rounded value `round(duration, 3)` the call site passes as
`duration_seconds`. -/
def completedEvent (req : Request) (status_code : Nat) (duration : ℚ) :
    LogEvent :=
  { level := "info", event := "request.completed",
    fields := [("method", PyValue.str req.method),
               ("path", PyValue.str req.path),
               ("status_code", PyValue.num (status_code : ℚ)),
               ("duration_seconds", PyValue.num duration)] }

/-- The `request.failed` record (middleware.py:56-64); `duration` is the
already-rounded value `round(duration, 3)` the call site passes as
`duration_seconds`. -/
def failedEvent (req : Request) (err : String) (duration : ℚ) : LogEvent :=
  { level := "error", event := "request.failed",
    fields := [("method", PyValue.str req.method),
               ("path", PyValue.str req.path),
               ("error", PyValue.str err),
               ("duration_seconds", PyValue.num duration)],
    excInfo := true }

/-- Embedding of `RequestLoggingMiddleware.dispatch` (middleware.py:18-66),
executed by task `t` with request-context state `c`.  `handler` is the
result of `await call_next(request)`: a response, or an exception it
raised.  The `time.time()` readings are clock parameters: `t0` at the
start (line 31), `t1` in the success branch (line 41), `t2` in the
`except` clause (line 57, reached only on an exception); each logged
`duration_seconds` is `round(duration, 3)` of the elapsed difference.
The `try` block covers everything through the header assignment at
line 53, so when that assignment raises (a `None` header value), the
`except` clause still logs `request.failed` and re-raises.  Note the
source never generates an id: `request_id =
request.headers.get("X-Request-ID")` may be `None`, is stored as-is via
`set_request_id`, and on the success path is assigned to the response
header via `setResponseHeader`. -/
def dispatch (t : TaskId) (c : ReqCtx) (req : Request)
    (handler : Except String Response) (t0 t1 t2 : ℚ) : DispatchResult :=
  let request_id := req.xRequestId
  let c1 := set_request_id t request_id c
  let started := startedEvent req
  match handler with
  | Except.ok response =>
      let duration := t1 - t0
      let completed := completedEvent req response.status_code (round3 duration)
      match setResponseHeader response "X-Request-ID" (get_request_id t c1) with
      | Except.ok r =>
          { logs := [started, completed],
            outcome := DispatchOutcome.response r }
      | Except.error e =>
          let duration2 := t2 - t0
          let failed := failedEvent req e (round3 duration2)
          { logs := [started, completed, failed],
            outcome := DispatchOutcome.raised e }
  | Except.error e =>
      let duration := t2 - t0
      let failed := failedEvent req e (round3 duration)
      { logs := [started, failed], outcome := DispatchOutcome.raised e }

/-! ## Theorems for the middleware (C1, C8) -/

/-- C1 evaluation at the failing input: for a request carrying no
`X-Request-ID` header whose handler returns a 200 response, the
middleware does not generate any id — it stores `None` and then assigns
`None` as the response header, so starlette raises `AttributeError` and
no success response with a non-empty generated id is ever produced.  (By
contrast, the echo half of the claim holds: a request carrying
`test-request-123` gets exactly that value echoed back.) -/
theorem dispatch_without_header_generates_nothing :
    (dispatch 0 (fun _ => Option.none)
        { method := "GET", path := "/test", client_host := some "127.0.0.1",
          xRequestId := Option.none }
        (Except.ok { status_code := 200, headers := [] }) 0 1 1).outcome =
      DispatchOutcome.raised
        "AttributeError: NoneType object has no attribute encode" ∧
    (dispatch 0 (fun _ => Option.none)
        { method := "GET", path := "/test", client_host := some "127.0.0.1",
          xRequestId := some "test-request-123" }
        (Except.ok { status_code := 200, headers := [] }) 0 1 1).outcome =
      DispatchOutcome.response
        { status_code := 200,
          headers := [("X-Request-ID", "test-request-123")] } := by
  constructor <;> rfl

/-- The rounded value is non-negative when the argument is. -/
theorem roundHalfEven_nonneg (q : ℚ) (h : 0 ≤ q) : 0 ≤ roundHalfEven q := by
  unfold roundHalfEven
  have hn : 0 ≤ ⌊q⌋ := Int.floor_nonneg.mpr h
  split_ifs <;> omega

/-- Any rational strictly above one half rounds to at least 1. -/
theorem roundHalfEven_ge_one (q : ℚ) (h : 1/2 < q) : 1 ≤ roundHalfEven q := by
  unfold roundHalfEven
  have hle : (⌊q⌋ : ℚ) ≤ q := Int.floor_le q
  have hlt : q < ⌊q⌋ + 1 := Int.lt_floor_add_one q
  split_ifs with h1 h2 h3
  · have h0 : (0:ℚ) < (⌊q⌋ : ℚ) := by linarith
    have : (0:ℤ) < ⌊q⌋ := by exact_mod_cast h0
    omega
  · have h0 : (-1:ℚ) < (⌊q⌋ : ℚ) := by linarith
    have : (-1:ℤ) < ⌊q⌋ := by exact_mod_cast h0
    omega
  · have h0 : (0:ℚ) < (⌊q⌋ : ℚ) := by linarith
    have : (0:ℤ) < ⌊q⌋ := by exact_mod_cast h0
    omega
  · have h0 : (0:ℚ) < (⌊q⌋ : ℚ) := by linarith
    have : (0:ℤ) < ⌊q⌋ := by exact_mod_cast h0
    omega

/-- `round(d, 3)` of a non-negative duration is non-negative. -/
theorem round3_nonneg (d : ℚ) (h : 0 ≤ d) : 0 ≤ round3 d := by
  unfold round3
  have h1 : 0 ≤ roundHalfEven (d * 1000) :=
    roundHalfEven_nonneg _ (by linarith)
  have h2 : (0:ℚ) ≤ (roundHalfEven (d * 1000) : ℚ) := by exact_mod_cast h1
  linarith

/-- `round(d, 3)` of a duration above half a millisecond is positive. -/
theorem round3_pos (d : ℚ) (h : 1/2000 < d) : 0 < round3 d := by
  unfold round3
  have h1 : (1:ℚ)/2 < d * 1000 := by linarith
  have h2 : 1 ≤ roundHalfEven (d * 1000) := roundHalfEven_ge_one _ h1
  have h3 : (1:ℚ) ≤ (roundHalfEven (d * 1000) : ℚ) := by exact_mod_cast h2
  linarith

/-- C8 counterexample: the claim promises a positive logged duration, but
the middleware logs `duration_seconds = round(duration, 3)`, which is
`0.0` for a sub-millisecond failure.  Here the handler raises `Test
error` and the clock advances by 0.0004 s, yet the `request.failed`
record carries duration 0 — not a positive value. -/
theorem dispatch_failed_duration_zero :
    (0:ℚ) < 1/2500 ∧
    (dispatch 0 (fun _ => Option.none)
        { method := "GET", path := "/api/error",
          client_host := some "127.0.0.1", xRequestId := Option.none }
        (Except.error "Test error") 0 0 (1/2500)).logs =
      [startedEvent
        { method := "GET", path := "/api/error",
          client_host := some "127.0.0.1", xRequestId := Option.none },
       failedEvent
        { method := "GET", path := "/api/error",
          client_host := some "127.0.0.1", xRequestId := Option.none }
        "Test error" (round3 ((1:ℚ)/2500 - 0))] ∧
    round3 ((1:ℚ)/2500 - 0) = 0 ∧
    ¬ (0:ℚ) < 0 := by
  refine ⟨by norm_num, rfl, ?_, by norm_num⟩
  have hfloor : ⌊((1:ℚ)/2500 - 0) * 1000⌋ = 0 := by
    rw [Int.floor_eq_zero_iff]
    constructor <;> norm_num
  unfold round3 roundHalfEven
  rw [hfloor]
  rw [if_pos (by norm_num)]
  norm_num

/-- C8 (amended): when the delegate raises after `request.started` was
logged, the middleware emits exactly one `request.failed` record,
carrying the error text and the rounded non-negative elapsed duration —
positive whenever more than half a millisecond elapsed — re-raises the
original exception unchanged, and produces no response, hence sets no
`X-Request-ID` header on that path; and for every handler outcome the
`request.started` record is the first record logged, and the last record
is `request.completed` or `request.failed`. -/
theorem dispatch_failure_spec (t : TaskId) (c : ReqCtx) (req : Request)
    (e : String) (t0 t1 t2 : ℚ) (h : t0 < t2) :
    (dispatch t c req (Except.error e) t0 t1 t2).logs =
      [startedEvent req, failedEvent req e (round3 (t2 - t0))] ∧
    ((dispatch t c req (Except.error e) t0 t1 t2).logs.filter
      (fun ev => ev.event = "request.failed")).length = 1 ∧
    ("error", PyValue.str e) ∈ (failedEvent req e (round3 (t2 - t0))).fields ∧
    0 ≤ round3 (t2 - t0) ∧
    (1/2000 < t2 - t0 → 0 < round3 (t2 - t0)) ∧
    (dispatch t c req (Except.error e) t0 t1 t2).outcome =
      DispatchOutcome.raised e ∧
    (∀ r : Response, (dispatch t c req (Except.error e) t0 t1 t2).outcome ≠
      DispatchOutcome.response r) ∧
    (∀ handler : Except String Response,
      (dispatch t c req handler t0 t1 t2).logs.head? =
        some (startedEvent req) ∧
      (((dispatch t c req handler t0 t1 t2).logs.getLast?).map LogEvent.event =
          some "request.completed" ∨
        ((dispatch t c req handler t0 t1 t2).logs.getLast?).map LogEvent.event =
          some "request.failed")) := by
  refine ⟨rfl, ?_, ?_, ?_, ?_, rfl, ?_, ?_⟩
  · simp [dispatch, startedEvent, failedEvent]
  · simp [failedEvent]
  · exact round3_nonneg _ (by linarith)
  · intro hms
    exact round3_pos _ hms
  · intro r hr
    simp [dispatch] at hr
  · intro handler
    cases handler with
    | ok resp =>
        cases hx : req.xRequestId with
        | some v =>
            constructor
            · simp [dispatch, get_request_id, set_request_id, hx,
                setResponseHeader]
            · left
              simp [dispatch, get_request_id, set_request_id, hx,
                setResponseHeader, completedEvent]
        | none =>
            constructor
            · simp [dispatch, get_request_id, set_request_id, hx,
                setResponseHeader]
            · right
              simp [dispatch, get_request_id, set_request_id, hx,
                setResponseHeader, failedEvent]
    | error e' =>
        constructor
        · simp [dispatch]
        · right
          simp [dispatch, failedEvent]

/-- Witness for the amended C8 at a concrete failing request whose
elapsed time (one second) makes the rounded logged duration positive. -/
theorem dispatch_failure_spec_witness :
    (0 : ℚ) < 1 ∧
    ((dispatch 0 (fun _ => Option.none)
        { method := "GET", path := "/api/error",
          client_host := some "127.0.0.1", xRequestId := Option.none }
        (Except.error "Test error") 0 0 1).outcome =
      DispatchOutcome.raised "Test error" ∧
      ((1:ℚ)/2000 < 1 - 0 → 0 < round3 (1 - 0))) := by
  have h := dispatch_failure_spec 0 (fun _ => Option.none)
    { method := "GET", path := "/api/error",
      client_host := some "127.0.0.1", xRequestId := Option.none }
    "Test error" 0 0 1 (by norm_num)
  exact ⟨by norm_num, h.2.2.2.2.2.1, h.2.2.2.2.1⟩

/-! ## Exception-to-response mapper (`app/core/exceptions.py`)

`DatabaseError` is the base class; `NotFoundError` and `ValidationError`
subclass it.  `database_exception_handler` logs the exception at error
severity with the request path and `exc_info=True`, then builds a
`JSONResponse` whose status depends on the concrete class. -/

/-- The closed hierarchy of database exceptions: the concrete class of a
raised exception, with its message `str(exc)`. -/
inductive DatabaseError where
  | base (msg : String)
  | notFound (msg : String)
  | validation (msg : String)
deriving DecidableEq, Repr

/-- `str(exc)`: the exception message. -/
def excMessage : DatabaseError → String
  | DatabaseError.base m => m
  | DatabaseError.notFound m => m
  | DatabaseError.validation m => m

/-- `type(exc).__name__` for each concrete class. -/
def excTypeName : DatabaseError → String
  | DatabaseError.base _ => "DatabaseError"
  | DatabaseError.notFound _ => "NotFoundError"
  | DatabaseError.validation _ => "ValidationError"

/-- One observable effect of the exception handler, in execution order:
emitting a log record, or producing the JSON response (status and
body). -/
inductive HandlerEffect where
  | log (ev : LogEvent)
  | respond (status : Nat) (body : List (String × PyValue))
deriving DecidableEq, Repr

/-- Embedding of `database_exception_handler` (exceptions.py:30-60) as its
ordered list of effects: first `logger.error("database.exception", ...,
exc_info=True)`, then the `JSONResponse`.  The status starts at 500 and is
replaced by 404 for `NotFoundError` and 422 for `ValidationError`
(`isinstance` checks on the disjoint leaf classes). -/
def database_exception_handler (path : String) (exc : DatabaseError) :
    List HandlerEffect :=
  let logRecord : LogEvent :=
    { level := "error", event := "database.exception",
      fields := [("error", PyValue.str (excMessage exc)),
                 ("error_type", PyValue.str (excTypeName exc)),
                 ("path", PyValue.str path)],
      excInfo := true }
  let status_code : Nat :=
    match exc with
    | DatabaseError.notFound _ => 404
    | DatabaseError.validation _ => 422
    | DatabaseError.base _ => 500
  [HandlerEffect.log logRecord,
   HandlerEffect.respond status_code
     [("error", PyValue.str (excMessage exc)),
      ("type", PyValue.str (excTypeName exc))]]

/-- C4: for every request path and message, `NotFoundError` maps to 404,
`ValidationError` to 422 and base `DatabaseError` to 500; the JSON body is
exactly `{"error": message, "type": class name}`; and each response is
preceded by exactly one error-severity log record carrying the message,
the class name, the request path and `exc_info=True`. -/
theorem database_exception_handler_spec (path m : String) :
    database_exception_handler path (DatabaseError.notFound m) =
      [HandlerEffect.log
        { level := "error", event := "database.exception",
          fields := [("error", PyValue.str m),
                     ("error_type", PyValue.str "NotFoundError"),
                     ("path", PyValue.str path)],
          excInfo := true },
       HandlerEffect.respond 404
         [("error", PyValue.str m),
          ("type", PyValue.str "NotFoundError")]] ∧
    database_exception_handler path (DatabaseError.validation m) =
      [HandlerEffect.log
        { level := "error", event := "database.exception",
          fields := [("error", PyValue.str m),
                     ("error_type", PyValue.str "ValidationError"),
                     ("path", PyValue.str path)],
          excInfo := true },
       HandlerEffect.respond 422
         [("error", PyValue.str m),
          ("type", PyValue.str "ValidationError")]] ∧
    database_exception_handler path (DatabaseError.base m) =
      [HandlerEffect.log
        { level := "error", event := "database.exception",
          fields := [("error", PyValue.str m),
                     ("error_type", PyValue.str "DatabaseError"),
                     ("path", PyValue.str path)],
          excInfo := true },
       HandlerEffect.respond 500
         [("error", PyValue.str m),
          ("type", PyValue.str "DatabaseError")]] :=
  ⟨rfl, rfl, rfl⟩

/-! ## Health endpoints (`app/core/health.py`) -/

/-- The outcome of a health endpoint: a JSON payload with status 200, or
an `HTTPException` carrying a status code and a `detail` message. -/
inductive HealthResult where
  | ok (status : Nat) (body : List (String × PyValue))
  | httpError (status : Nat) (detail : String)
deriving DecidableEq, Repr

/-- Embedding of `health_check` (health.py:17-24): returns a fixed
payload unconditionally (a returned dict becomes a 200 response). -/
def health_check : HealthResult :=
  HealthResult.ok 200
    [("status", PyValue.str "healthy"), ("service", PyValue.str "api")]

/-- Embedding of `database_health_check` (health.py:27-54): the argument
is the result of `await db.execute(text("SELECT 1"))` on the injected
session — `Except.error e` models any raised exception with message `e`.
On failure the handler raises `HTTPException(503, "Database connection
failed")`; the original error only goes to the log, never into the
response. -/
def database_health_check : Except String Unit → HealthResult
  | Except.ok _ =>
      HealthResult.ok 200
        [("status", PyValue.str "healthy"),
         ("service", PyValue.str "database"),
         ("provider", PyValue.str "postgresql")]
  | Except.error _ => HealthResult.httpError 503 "Database connection failed"

/-- Embedding of `readiness_check` (health.py:57-95): same probe; on
success the payload includes the configured environment name; on failure
`HTTPException(503, "Application not ready")`. -/
def readiness_check (environment : String) :
    Except String Unit → HealthResult
  | Except.ok _ =>
      HealthResult.ok 200
        [("status", PyValue.str "ready"),
         ("environment", PyValue.str environment),
         ("database", PyValue.str "connected")]
  | Except.error _ => HealthResult.httpError 503 "Application not ready"

/-- C7: `/health` returns 200 with the fixed payload unconditionally;
whenever the injected session's execute raises, `/health/db` returns 503
with detail "Database connection failed" and `/health/ready` returns 503
with detail "Application not ready"; in both failure cases the response
is a fixed value independent of the raised error, so the original error
message is not included. -/
theorem health_endpoints_spec (environment e e₂ : String) :
    health_check =
      HealthResult.ok 200
        [("status", PyValue.str "healthy"),
         ("service", PyValue.str "api")] ∧
    database_health_check (Except.error e) =
      HealthResult.httpError 503 "Database connection failed" ∧
    readiness_check environment (Except.error e) =
      HealthResult.httpError 503 "Application not ready" ∧
    database_health_check (Except.error e) =
      database_health_check (Except.error e₂) ∧
    readiness_check environment (Except.error e) =
      readiness_check environment (Except.error e₂) :=
  ⟨rfl, rfl, rfl, rfl, rfl⟩

/-! ## Root endpoint (application assembly) -/

/-- Modelled from the spec: the application-assembly module that creates
the web-framework application and defines the root endpoint is missing
from the sources — only its tests (`app/tests/test_main.py`, importing
`app.main`) remain.  Per the spec's interface table, `GET /` returns
200 with `{message, version, docs}` built from the configured app name
and version and the docs path. -/
def root_endpoint (app_name version : String) :
    Nat × List (String × PyValue) :=
  (200, [("message", PyValue.str app_name),
         ("version", PyValue.str version),
         ("docs", PyValue.str "/docs")])

/-- C3: for every configured app name and version, `GET /` returns
HTTP 200 and its JSON body contains the fields `message`, `version` and
`docs`. -/
theorem root_endpoint_spec (app_name version : String) :
    (root_endpoint app_name version).1 = 200 ∧
    dictGet (root_endpoint app_name version).2 "message" =
      some (PyValue.str app_name) ∧
    dictGet (root_endpoint app_name version).2 "version" =
      some (PyValue.str version) ∧
    dictGet (root_endpoint app_name version).2 "docs" =
      some (PyValue.str "/docs") :=
  ⟨rfl, rfl, rfl, rfl⟩
